import Mathlib

/-!
Shallow embedding of `src/health_monitor.py` (class `HealthMonitor`).

Modelling conventions:
* Python `float` values (usage percentages, thresholds, response times,
  temperatures) are embedded as `ℚ`; wall-clock instants are `ℚ` seconds
  since an arbitrary epoch (Python compares `datetime` / `time.time()`
  values, which is order-isomorphic to this).
* I/O performed by a method (`requests.get`, `psutil` sampling,
  `subprocess.run`, file reads, `datetime.strptime`) is passed in as an
  explicit outcome/environment argument; a Python exception raised by the
  sampled library is an explicit `failure`/`exception` constructor, since the
  source catches it at the documented boundary.
* Python dicts used as mutable maps (`alerts_sent`, `last_checks`) are
  association lists updated by prepending; lookup takes the first (newest)
  binding, which agrees with dict assignment semantics.
-/

namespace HealthMonitor

/-- Status tag stored per check entry in the result dict:
`'ok'`, `'error'` or `'warning'` in the Python source. -/
inductive CheckStatus
  | ok
  | error
  | warning
  deriving DecidableEq, Repr

/-- The slice of the configuration tree read by the checks
(`config['checks']` plus the alert / recovery / metrics sections are
modelled separately where needed). Field names follow the config keys. -/
structure Config where
  api_enabled : Bool
  api_threshold : ℚ
  cpu_enabled : Bool
  cpu_threshold : ℚ
  memory_enabled : Bool
  memory_threshold : ℚ
  disk_enabled : Bool
  disk_threshold : ℚ
  temperature_enabled : Bool
  temperature_threshold : ℚ
  process_enabled : Bool
  process_threshold : ℚ
  deriving DecidableEq, Repr

/-- Outcome of the two temperature sources tried by
`get_cpu_temperature`: a thermal-zone file (millicelsius integer), a
successful `vcgencmd` parse (celsius), or failure of both / an exception
(the bare `except Exception: pass`). -/
inductive TempSource
  | thermal (millicelsius : ℤ)
  | vcgencmd (celsius : ℚ)
  | failure
  deriving DecidableEq, Repr

/-- `get_cpu_temperature`: returns the sampled temperature, or `0.0` when
every source fails (the exception is swallowed). -/
def get_cpu_temperature : TempSource → ℚ
  | .thermal m => (m : ℚ) / 1000
  | .vcgencmd c => c
  | .failure => 0

/-- One successful round of `psutil` samples taken by
`check_system_resources`.  `disk_used`/`disk_total` feed the
`(disk.used / disk.total) * 100` computation (psutil guarantees
`disk_total > 0`, so rational division matches Python). -/
structure ResourceSamples where
  cpu_usage : ℚ
  memory_percent : ℚ
  disk_used : ℚ
  disk_total : ℚ
  process_count : ℕ
  temperature : TempSource
  deriving DecidableEq, Repr

/-- Either the sampling block runs to completion, or some `psutil` call
raises and the `except` branch of `check_system_resources` fires. -/
inductive ResourceOutcome
  | success (s : ResourceSamples)
  | failure (e : String)
  deriving DecidableEq, Repr

/-- The per-metric detail dict built by `check_system_resources` on the
success path: each metric's sampled value and its `ok` flag. -/
structure ResourceReport where
  cpu_usage : ℚ
  cpu_ok : Bool
  memory_usage : ℚ
  memory_ok : Bool
  disk_usage : ℚ
  disk_ok : Bool
  process_count : ℕ
  process_ok : Bool
  temperature : ℚ
  temp_ok : Bool
  deriving DecidableEq, Repr

/-- The detail dict returned by `check_system_resources`: metric data on
success, `{'error': str(e)}` when sampling raised. -/
inductive ResourceDetail
  | metrics (r : ResourceReport)
  | errorDetail (e : String)
  deriving DecidableEq, Repr

/-- The body of `check_system_resources`'s `try` block: every threshold
comparison is strict (`<`), and the temperature compared is whatever
`get_cpu_temperature` returned.  Note that no `enabled` flag is read
here: all five metrics are always evaluated. -/
def resourceReport (cfg : Config) (s : ResourceSamples) : ResourceReport :=
  let disk_usage := s.disk_used / s.disk_total * 100
  let temperature := get_cpu_temperature s.temperature
  { cpu_usage := s.cpu_usage
    cpu_ok := decide (s.cpu_usage < cfg.cpu_threshold)
    memory_usage := s.memory_percent
    memory_ok := decide (s.memory_percent < cfg.memory_threshold)
    disk_usage := disk_usage
    disk_ok := decide (disk_usage < cfg.disk_threshold)
    process_count := s.process_count
    process_ok := decide ((s.process_count : ℚ) < cfg.process_threshold)
    temperature := temperature
    temp_ok := decide (temperature < cfg.temperature_threshold) }

/-- `check_system_resources`: `(all_ok, details)` on success,
`(False, {'error': str(e)})` when sampling raises. -/
def check_system_resources (cfg : Config) : ResourceOutcome → Bool × ResourceDetail
  | .success s =>
      let r := resourceReport cfg s
      (r.cpu_ok && r.memory_ok && r.disk_ok && r.process_ok && r.temp_ok, .metrics r)
  | .failure e => (false, .errorDetail e)

/-- Outcome of the `requests.get` call in `check_api_health`: a response
with status code and measured elapsed time, or a raised exception. -/
inductive ApiOutcome
  | response (status_code : ℕ) (response_time : ℚ)
  | exception (e : String)
  deriving DecidableEq, Repr

/-- `check_api_health`: on a 200 response the verdict is
`response_time < threshold`; any other status code or an exception is a
fail verdict. -/
def check_api_health (cfg : Config) : ApiOutcome → Bool
  | .response code rt => if code = 200 then decide (rt < cfg.api_threshold) else false
  | .exception _ => false

/-- Outcome of the `systemctl is-active` call in `check_service_status`:
its stdout, or a raised exception. -/
inductive ServiceOutcome
  | ran (stdout : String)
  | exception (e : String)
  deriving DecidableEq, Repr

/-! Python string primitives (`in`, `strip`, `split`) are rendered as
structural recursions over the code-point list `String.data`, matching
Python's code-point semantics. -/

/-- Whether `pat` occurs at the head of `cs`. -/
def charsStartWith : List Char → List Char → Bool
  | [], _ => true
  | _ :: _, [] => false
  | p :: ps, c :: cs => p == c && charsStartWith ps cs

/-- Whether `pat` occurs contiguously anywhere in `cs`
(Python `pat in s` on strings). -/
def charsContain (pat : List Char) : List Char → Bool
  | [] => charsStartWith pat []
  | c :: cs => charsStartWith pat (c :: cs) || charsContain pat cs

/-- The code points strictly before the first occurrence of `sep`, or
all of them when `sep` does not occur (Python `s.split(sep)[0]`). -/
def charsBeforeSep (sep : List Char) : List Char → List Char
  | [] => []
  | c :: cs => if charsStartWith sep (c :: cs) then [] else c :: charsBeforeSep sep cs

/-- Python `s.strip()`: drop whitespace from both ends. -/
def stripStr (s : String) : String :=
  ⟨((s.data.dropWhile Char.isWhitespace).reverse.dropWhile Char.isWhitespace).reverse⟩

/-- Split on a separator code point (Python `s.split(sep)` for a
one-character separator). -/
def splitCharsOn (sep : Char) : List Char → List (List Char)
  | [] => [[]]
  | c :: cs =>
      match splitCharsOn sep cs with
      | [] => [[c]]
      | g :: gs => if c == sep then [] :: g :: gs else (c :: g) :: gs

/-- Python `stdout.split('\n')`. -/
def splitLines (s : String) : List String :=
  (splitCharsOn (Char.ofNat 10) s.data).map (fun cs => ⟨cs⟩)

/-- `check_service_status`: active iff the stripped stdout of
`systemctl is-active` equals `"active"`; an exception is a fail verdict. -/
def check_service_status : ServiceOutcome → Bool
  | .ran out => decide (stripStr out = "active")
  | .exception _ => false

/-- The keyword set scanned for by `check_log_errors`. -/
def error_keywords : List String := ["ERROR", "CRITICAL", "FATAL", "Exception", "Traceback"]

/-- Python `any(keyword in line for keyword in error_keywords)`. -/
def containsKeyword (line : String) : Bool :=
  error_keywords.any (fun k => charsContain k.data line.data)

/-- Python `line.split(' - ')[0]`: everything before the first
`" - "` separator, or the whole line when the separator is absent. -/
def timestampStr (line : String) : String :=
  ⟨charsBeforeSep " - ".data line.data⟩

/-- The body of the per-line `try` in `check_log_errors`: a line counts
as recent when its extracted timestamp parses and lies within the last 5
minutes (300 s), or — conservatively — when parsing raises.  The
`datetime.strptime` library call is the environment parameter `parse`
(`none` models a raised `ValueError`). -/
def recentLine (parse : String → Option ℚ) (now : ℚ) (line : String) : Bool :=
  match parse (timestampStr line) with
  | some t => decide (now - t < 300)
  | none => true

/-- Python `error_lines[-10:]`: the last (at most) ten elements. -/
def lastTen (l : List String) : List String :=
  l.drop (l.length - 10)

/-- Outcome of the log access in `check_log_errors`: the log file is
absent, the `tail` subprocess produced `stdout`, or something raised. -/
inductive LogOutcome
  | missing
  | tail (stdout : String)
  | exception (e : String)

/-- The detail dict returned by `check_log_errors`. -/
inductive LogDetail
  | message (m : String)
  | report (recent_errors : List String) (total_errors_checked : ℕ)
  | errorDetail (e : String)
  deriving DecidableEq, Repr

/-- `check_log_errors`: a missing log file passes; otherwise keyword
lines are collected (stripped), only the LAST TEN of them are filtered
for recency, and the verdict is pass iff that recent list is empty. -/
def check_log_errors (parse : String → Option ℚ) (now : ℚ) : LogOutcome → Bool × LogDetail
  | .missing => (true, .message "Log file not found")
  | .tail stdout =>
      let error_lines := ((splitLines stdout).filter containsKeyword).map stripStr
      let recent_errors := (lastTen error_lines).filter (recentLine parse now)
      (recent_errors.isEmpty, .report recent_errors error_lines.length)
  | .exception e => (false, .errorDetail e)

/-- The resource checks gate in `run_health_check`:
`any(self.config['checks'][check]['enabled'] for check in resource_checks)`. -/
def anyResourceEnabled (cfg : Config) : Bool :=
  cfg.cpu_enabled || cfg.memory_enabled || cfg.disk_enabled
    || cfg.temperature_enabled || cfg.process_enabled

/-- External world consumed by one `run_health_check` call. -/
structure Env where
  api : ApiOutcome
  resources : ResourceOutcome
  service : ServiceOutcome
  logs : LogOutcome
  logParse : String → Option ℚ
  now : ℚ

/-- The `results` dict built by `run_health_check`.  Each entry of
`checks` is `(name, status)`; the per-check `data` payloads are exactly
the probe details above and no claim reads them from the aggregate, so
they are not duplicated here. -/
structure HealthResult where
  overall_status : String
  checks : List (String × CheckStatus)
  deriving DecidableEq, Repr

/-- `run_health_check`: api (iff enabled) and the composite resources
entry (iff any of the five resource checks is enabled) are conditional;
the service and logs entries are appended unconditionally.  `logs` gets
`'warning'` instead of `'error'` on failure and does not enter
`all_checks_ok`. -/
def run_health_check (cfg : Config) (env : Env) : HealthResult :=
  let apiPart : List (String × CheckStatus) × Bool :=
    if cfg.api_enabled then
      let api_ok := check_api_health cfg env.api
      ([("api", if api_ok then .ok else .error)], api_ok)
    else ([], true)
  let resPart : List (String × CheckStatus) × Bool :=
    if anyResourceEnabled cfg then
      let resources_ok := (check_system_resources cfg env.resources).1
      ([("resources", if resources_ok then .ok else .error)], resources_ok)
    else ([], true)
  let service_ok := check_service_status env.service
  let logs_ok := (check_log_errors env.logParse env.now env.logs).1
  let all_checks_ok := apiPart.2 && resPart.2 && service_ok
  { overall_status := if all_checks_ok then "healthy" else "unhealthy"
    checks := apiPart.1 ++ resPart.1
      ++ [("service", if service_ok then .ok else .error)]
      ++ [("logs", if logs_ok then .ok else .warning)] }

/-- Status of a named entry of the checks map, when present. -/
def checkStatusOf (r : HealthResult) (name : String) : Option CheckStatus :=
  (r.checks.find? (fun p => decide (p.1 = name))).map (fun p => p.2)

/-- Outcome of one sink transport attempt.  `send_email_alert` and
`send_webhook_alert` catch their own exceptions, so this value never
flows back into the monitor state. -/
inductive SinkResult
  | delivered
  | failed (e : String)
  deriving DecidableEq, Repr

/-- The `config['alerts']` slice read by `send_alert`. -/
structure AlertConfig where
  email_enabled : Bool
  webhook_enabled : Bool
  cooldown : ℚ
  deriving DecidableEq, Repr

/-- The mutable `self.alerts_sent` dict, keyed by the alert key.  Python
keys on the string `alert_type + "_" + str(hash(message))`; since `hash`
is a function, two calls share a key exactly when they share
`(alert_type, message)` (up to hash collisions between distinct
messages, which no claim involves), so the key is modelled as that
pair.  Updates prepend; lookup takes the newest binding. -/
structure AlertState where
  alerts_sent : List ((String × String) × ℚ)
  deriving DecidableEq, Repr

/-- `self.alerts_sent[alert_key]`, when bound. -/
def lookupAlert (st : AlertState) (k : String × String) : Option ℚ :=
  (st.alerts_sent.find? (fun p => decide (p.1 = k))).map (fun p => p.2)

/-- `send_alert`: inside the cooldown window the call is a silent no-op
(result `none`, state unchanged); otherwise `alerts_sent[key] = now` is
recorded FIRST and then each enabled sink is attempted (result
`some sinks`, listing the attempted sinks with their transport
outcomes, which do not affect the state). -/
def send_alert (cfg : AlertConfig) (st : AlertState) (now : ℚ)
    (alert_type message : String) (emailResult webhookResult : SinkResult) :
    AlertState × Option (List (String × SinkResult)) :=
  let key := (alert_type, message)
  let skip :=
    match lookupAlert st key with
    | some last => decide (now - last < cfg.cooldown)
    | none => false
  if skip then (st, none)
  else
    ({ alerts_sent := (key, now) :: st.alerts_sent },
      some ((if cfg.email_enabled then [("email", emailResult)] else [])
        ++ (if cfg.webhook_enabled then [("webhook", webhookResult)] else [])))

/-- The `config['recovery']` slice read by `attempt_recovery`. -/
structure RecoveryConfig where
  auto_restart : Bool
  restart_cooldown : ℚ
  deriving DecidableEq, Repr

/-- Outcome of the `subprocess.run(['sudo', 'systemctl', 'restart', ...])`
call: it completed with a return code (0 or not), or it raised (for
example `TimeoutExpired` after 30 s). -/
inductive RestartOutcome
  | completed (returncode : ℤ) (stderr : String)
  | raised (e : String)
  deriving DecidableEq, Repr

/-- The mutable `self.last_checks` dict.  Updates prepend; lookup takes
the newest binding. -/
structure RecoveryState where
  last_checks : List (String × ℚ)
  deriving DecidableEq, Repr

/-- `self.last_checks[key]`, when bound. -/
def lookupRecovery (st : RecoveryState) (k : String) : Option ℚ :=
  (st.last_checks.find? (fun p => decide (p.1 = k))).map (fun p => p.2)

/-- `attempt_recovery`: no-op when auto-restart is off, when the
cooldown for `'service_restart'` has not elapsed, or when the service
entry is not in error.  Otherwise the restart action is issued (the
returned `Bool`); `last_checks['service_restart'] = now` executes at the
end of the `try` block, so it runs when the action COMPLETED (either
return code) but is skipped when the action RAISED and control jumped to
the `except` branch. -/
def attempt_recovery (cfg : RecoveryConfig) (st : RecoveryState) (now : ℚ)
    (serviceStatus : Option CheckStatus) (outcome : RestartOutcome) :
    RecoveryState × Bool :=
  if cfg.auto_restart = false then (st, false)
  else
    let skip :=
      match lookupRecovery st "service_restart" with
      | some last => decide (now - last < cfg.restart_cooldown)
      | none => false
    if skip then (st, false)
    else if serviceStatus = some CheckStatus.error then
      match outcome with
      | .completed _ _ => ({ last_checks := ("service_restart", now) :: st.last_checks }, true)
      | .raised _ => (st, true)
    else (st, false)

/-- `collect_metrics`, restricted to the retention logic: entries carry
full check results in Python but only their timestamps matter to
pruning, so the window is the list of entry timestamps (seconds).  The
cutoff is `now - timedelta(hours=retention_hours)`; entries strictly
NEWER than the cutoff are kept. -/
def collect_metrics (retention_hours : ℚ) (history : List ℚ) (now : ℚ) : List ℚ :=
  let appended := history ++ [now]
  let cutoff := now - retention_hours * 3600
  appended.filter (fun t => decide (cutoff < t))

/-! Concrete configurations and environments used to instantiate the
claims below.  `cfgDefault` mirrors the compiled-in default thresholds
of `load_config`. -/

/-- The default `checks` configuration tree of `load_config`. -/
def cfgDefault : Config :=
  { api_enabled := true, api_threshold := 5
    cpu_enabled := true, cpu_threshold := 90
    memory_enabled := true, memory_threshold := 85
    disk_enabled := true, disk_threshold := 90
    temperature_enabled := true, temperature_threshold := 80
    process_enabled := true, process_threshold := 500 }

/-- The default configuration with every check disabled. -/
def cfgAllOff : Config :=
  { cfgDefault with
    api_enabled := false, cpu_enabled := false, memory_enabled := false
    disk_enabled := false, temperature_enabled := false, process_enabled := false }

/-- Healthy resource samples except that both temperature sources fail. -/
def tempFailSamples : ResourceSamples :=
  { cpu_usage := 10, memory_percent := 20, disk_used := 30, disk_total := 100
    process_count := 100, temperature := .failure }

/-- An environment in which every probed collaborator is down. -/
def envSvcDown : Env :=
  { api := .exception "connection refused", resources := .failure "psutil error"
    service := .exception "systemctl timed out", logs := .missing
    logParse := fun _ => none, now := 0 }

/-- Every entry of `config['checks']` disabled. -/
def allChecksDisabled (cfg : Config) : Prop :=
  cfg.api_enabled = false ∧ cfg.cpu_enabled = false ∧ cfg.memory_enabled = false
    ∧ cfg.disk_enabled = false ∧ cfg.temperature_enabled = false
    ∧ cfg.process_enabled = false

/-- Default thresholds, but with the `cpu_usage` check disabled while
`memory_usage` stays enabled. -/
def cfgCpuDisabled : Config :=
  { cfgDefault with
    api_enabled := false, cpu_enabled := false, disk_enabled := false
    temperature_enabled := false, process_enabled := false }

/-- Samples that are healthy on every metric except cpu (95 against the
default threshold of 90). -/
def hotCpuSamples : ResourceSamples :=
  { cpu_usage := 95, memory_percent := 20, disk_used := 30, disk_total := 100
    process_count := 100, temperature := .vcgencmd 40 }

/-- An environment whose only anomaly is the hot cpu sample. -/
def envHotCpu : Env :=
  { api := .exception "unused", resources := .success hotCpuSamples
    service := .ran "active", logs := .missing
    logParse := fun _ => none, now := 0 }

/-- Overwrite only the five resource `enabled` flags of a config. -/
def setResourceFlags (cfg : Config) (c m d t p : Bool) : Config :=
  { cfg with
    cpu_enabled := c, memory_enabled := m, disk_enabled := d
    temperature_enabled := t, process_enabled := p }

/-- The default alert configuration cooldown (300 s) with only the
webhook sink enabled. -/
def alertCfg300 : AlertConfig :=
  { email_enabled := false, webhook_enabled := true, cooldown := 300 }

/-- Cooldown of 300 s with BOTH sinks enabled. -/
def alertCfgBoth : AlertConfig :=
  { email_enabled := true, webhook_enabled := true, cooldown := 300 }

/-- The default recovery configuration: auto-restart on, 600 s cooldown. -/
def recCfg : RecoveryConfig :=
  { auto_restart := true, restart_cooldown := 600 }

/-- A concrete timestamp parser: prefix `"R"` parses to 900 (recent
against `now = 1000`), prefix `"O"` parses to 0 (old), anything else
fails to parse. -/
def parseCex : String → Option ℚ := fun s =>
  if s = "R" then some 900 else if s = "O" then some 0 else none

/-- Eleven keyword-matching log lines: one recent line followed by ten
old ones. -/
def cexLines : List String :=
  "R - ERROR recent" :: List.replicate 10 "O - ERROR old"

/-- Join lines with newlines (inverse of `splitLines` on these inputs). -/
def joinLines : List String → String
  | [] => ""
  | [l] => l
  | l :: ls => l ++ "\n" ++ joinLines ls

/-- The tail output whose FIRST line is the recent error. -/
def stdoutCex : String := joinLines cexLines

end HealthMonitor

open HealthMonitor

/-- C4: appending an entry timestamped `now` to the metrics history
leaves zero entries older than `now - retention_hours` in the window
(the prune keeps exactly the strictly newer entries). -/
theorem C4_retention (retention_hours : ℚ) (history : List ℚ) (now : ℚ) :
    (collect_metrics retention_hours history now).countP
      (fun t => decide (t < now - retention_hours * 3600)) = 0 := by
  rw [List.countP_eq_zero]
  intro t ht
  have hmem := List.mem_filter.mp ht
  simp only [decide_eq_true_eq] at hmem ⊢
  linarith [hmem.2]

/-- C8: every threshold-based probe passes iff the sampled value is
STRICTLY below the configured threshold (cpu, memory, disk, process
count, temperature, and the api response-time probe on a 200 response);
in particular a sample equal to its threshold fails, as shown for the
cpu probe and the api probe at the boundary. -/
theorem C8_strict_thresholds (cfg : Config) (s : ResourceSamples) (rt : ℚ) :
    ((resourceReport cfg s).cpu_ok = true ↔ s.cpu_usage < cfg.cpu_threshold) ∧
    ((resourceReport cfg s).memory_ok = true ↔ s.memory_percent < cfg.memory_threshold) ∧
    ((resourceReport cfg s).disk_ok = true ↔
      s.disk_used / s.disk_total * 100 < cfg.disk_threshold) ∧
    ((resourceReport cfg s).process_ok = true ↔
      (s.process_count : ℚ) < cfg.process_threshold) ∧
    ((resourceReport cfg s).temp_ok = true ↔
      get_cpu_temperature s.temperature < cfg.temperature_threshold) ∧
    (check_api_health cfg (.response 200 rt) = true ↔ rt < cfg.api_threshold) ∧
    (resourceReport { cfg with cpu_threshold := s.cpu_usage } s).cpu_ok = false ∧
    check_api_health cfg (.response 200 cfg.api_threshold) = false := by
  simp [resourceReport, check_api_health, lt_irrefl]

/-- C6 counterexample: with the default thresholds, healthy samples for
cpu/memory/disk/processes but a FAILED temperature sampling, the
composite resources probe reports a PASS verdict with an ordinary
metrics detail — the swallowed failure surfaces as temperature `0.0`
with `temp_ok = true`, not as a fail verdict with an `error` detail
field, refuting the claim for the temperature probe. -/
theorem C6_counterexample :
    check_system_resources cfgDefault (.success tempFailSamples)
      = (true, .metrics
          { cpu_usage := 10, cpu_ok := true
            memory_usage := 20, memory_ok := true
            disk_usage := 30, disk_ok := true
            process_count := 100, process_ok := true
            temperature := 0, temp_ok := true }) := by
  simp only [check_system_resources, resourceReport, get_cpu_temperature, cfgDefault,
    tempFailSamples, Prod.mk.injEq, ResourceDetail.metrics.injEq, ResourceReport.mk.injEq]
  norm_num

/-- C6 amended: when the composite sampling block raises, the resources
probe reports fail with the failure description in the `error` detail
field; but a failure of the TEMPERATURE sampling alone is swallowed by
`get_cpu_temperature`, which returns `0.0`, so the temperature probe
then passes whenever the configured threshold is positive and the
detail stays an ordinary metrics dict with no error field. -/
theorem C6_amended (cfg : Config) (e : String) (s : ResourceSamples) :
    check_system_resources cfg (.failure e) = (false, .errorDetail e) ∧
    get_cpu_temperature .failure = 0 ∧
    (resourceReport cfg { s with temperature := .failure }).temp_ok
      = decide (0 < cfg.temperature_threshold) ∧
    (check_system_resources cfg (.success { s with temperature := .failure })).2
      = .metrics (resourceReport cfg { s with temperature := .failure }) := by
  refine ⟨rfl, rfl, ?_, rfl⟩
  simp [resourceReport, get_cpu_temperature]

/-- C1: a cycle result has overall status `'unhealthy'` iff its api,
resources or service entry carries status `'error'`; the logs entry is
never `'error'` (it is classified `'warning'` on failure and does not
feed the aggregate), so a result whose only non-ok entry is the logs
warning stays `'healthy'`. -/
theorem C1_unhealthy_iff_participating_error (cfg : Config) (env : Env) :
    ((run_health_check cfg env).overall_status = "unhealthy"
      ↔ (checkStatusOf (run_health_check cfg env) "api" = some CheckStatus.error
        ∨ checkStatusOf (run_health_check cfg env) "resources" = some CheckStatus.error
        ∨ checkStatusOf (run_health_check cfg env) "service" = some CheckStatus.error)) ∧
    checkStatusOf (run_health_check cfg env) "logs" ≠ some CheckStatus.error ∧
    ((run_health_check cfg env).overall_status = "healthy"
      ∨ (run_health_check cfg env).overall_status = "unhealthy") := by
  cases hapi : cfg.api_enabled <;>
  cases hres : anyResourceEnabled cfg <;>
  cases ha : check_api_health cfg env.api <;>
  cases hr : (check_system_resources cfg env.resources).1 <;>
  cases hs : check_service_status env.service <;>
  cases hl : (check_log_errors env.logParse env.now env.logs).1 <;>
    simp [run_health_check, checkStatusOf, hapi, hres, ha, hr, hs, hl]

/-- C5 counterexample: with every entry of `config['checks']` disabled,
`run_health_check` still appends the unconditional service and logs
entries — with the service probe failing, the checks map is
`[service ↦ error, logs ↦ ok]` (not empty) and the overall status is
`'unhealthy'` (not `'healthy'`), refuting both halves of the claim. -/
theorem C5_counterexample :
    (run_health_check cfgAllOff envSvcDown).checks
      = [("service", CheckStatus.error), ("logs", CheckStatus.ok)] ∧
    (run_health_check cfgAllOff envSvcDown).overall_status = "unhealthy" := by
  decide

/-- C5 amended: with every entry of `config['checks']` disabled, the
checks map consists of exactly the unconditional service and logs
entries, and the overall status is `'healthy'` iff the service probe
passes. -/
theorem C5_amended (cfg : Config) (env : Env) (h : allChecksDisabled cfg) :
    (run_health_check cfg env).checks
      = [("service", if check_service_status env.service
            then CheckStatus.ok else CheckStatus.error),
         ("logs", if (check_log_errors env.logParse env.now env.logs).1
            then CheckStatus.ok else CheckStatus.warning)] ∧
    ((run_health_check cfg env).overall_status = "healthy"
      ↔ check_service_status env.service = true) := by
  obtain ⟨h1, h2, h3, h4, h5, h6⟩ := h
  cases hs : check_service_status env.service <;>
  cases hl : (check_log_errors env.logParse env.now env.logs).1 <;>
    simp [run_health_check, anyResourceEnabled, h1, h2, h3, h4, h5, h6, hs, hl]

/-- C5 amended, instantiated at the all-disabled default configuration
and a down environment. -/
theorem C5_amended_witness :
    allChecksDisabled cfgAllOff ∧
    (run_health_check cfgAllOff envSvcDown).checks
      = [("service", if check_service_status envSvcDown.service
            then CheckStatus.ok else CheckStatus.error),
         ("logs", if (check_log_errors envSvcDown.logParse envSvcDown.now envSvcDown.logs).1
            then CheckStatus.ok else CheckStatus.warning)] :=
  ⟨⟨rfl, rfl, rfl, rfl, rfl, rfl⟩,
    (C5_amended cfgAllOff envSvcDown ⟨rfl, rfl, rfl, rfl, rfl, rfl⟩).1⟩

/-- C9 counterexample: with `cpu_usage` DISABLED and only
`memory_usage` enabled, a cycle whose sole anomaly is a cpu sample of
95 against the (disabled) threshold of 90 still yields a resources
entry with status `'error'` and an `'unhealthy'` overall status: the
composite resource check evaluates every metric regardless of the
per-probe `enabled` flags, so the disabled probe's value and threshold
are NOT excluded, refuting the claim. -/
theorem C9_counterexample :
    checkStatusOf (run_health_check cfgCpuDisabled envHotCpu) "resources"
      = some CheckStatus.error ∧
    (run_health_check cfgCpuDisabled envHotCpu).overall_status = "unhealthy" := by
  have hres : (check_system_resources cfgCpuDisabled envHotCpu.resources).1 = false := by
    norm_num [check_system_resources, resourceReport, get_cpu_temperature,
      envHotCpu, hotCpuSamples, cfgCpuDisabled, cfgDefault]
  have hsvc : check_service_status envHotCpu.service = true := by decide
  have hlog : (check_log_errors envHotCpu.logParse envHotCpu.now envHotCpu.logs).1 = true := by
    decide
  have hapi : cfgCpuDisabled.api_enabled = false := rfl
  have hany : anyResourceEnabled cfgCpuDisabled = true := rfl
  simp [run_health_check, checkStatusOf, hres, hsvc, hlog, hapi, hany]

/-- C9 amended: the api entry is present iff `api_response` is enabled
(and then carries the api probe's verdict); the composite resources
entry is present iff AT LEAST ONE of the five resource checks is
enabled, and then carries the composite verdict over ALL five metrics —
the composite is invariant under any change of the five per-probe
`enabled` flags, so an individually disabled resource probe's value and
threshold still participate whenever some other resource probe keeps
the composite enabled. -/
theorem C9_amended (cfg : Config) (env : Env) (c m d t p : Bool) :
    (checkStatusOf (run_health_check cfg env) "api"
      = if cfg.api_enabled then
          some (if check_api_health cfg env.api then CheckStatus.ok else CheckStatus.error)
        else none) ∧
    (checkStatusOf (run_health_check cfg env) "resources"
      = if anyResourceEnabled cfg then
          some (if (check_system_resources cfg env.resources).1
            then CheckStatus.ok else CheckStatus.error)
        else none) ∧
    check_system_resources (setResourceFlags cfg c m d t p) env.resources
      = check_system_resources cfg env.resources := by
  refine ⟨?_, ?_, ?_⟩
  · cases hapi : cfg.api_enabled <;>
    cases hres : anyResourceEnabled cfg <;>
    cases ha : check_api_health cfg env.api <;>
    cases hr : (check_system_resources cfg env.resources).1 <;>
    cases hs : check_service_status env.service <;>
      simp [run_health_check, checkStatusOf, hapi, hres, ha, hr, hs]
  · cases hapi : cfg.api_enabled <;>
    cases hres : anyResourceEnabled cfg <;>
    cases ha : check_api_health cfg env.api <;>
    cases hr : (check_system_resources cfg env.resources).1 <;>
      simp [run_health_check, checkStatusOf, hapi, hres, ha, hr]
  · generalize env.resources = o
    cases o <;> rfl

/-- Helper: a dispatched `send_alert` call leaves the cooldown map with
`(key, now)` as its newest binding. -/
theorem send_alert_state_of_dispatched (cfg : AlertConfig) (st : AlertState) (now : ℚ)
    (t m : String) (e w : SinkResult)
    (h : (send_alert cfg st now t m e w).2.isSome = true) :
    (send_alert cfg st now t m e w).1 = ⟨((t, m), now) :: st.alerts_sent⟩ := by
  cases hl : lookupAlert st (t, m) with
  | none => simp [send_alert, hl]
  | some last =>
      by_cases hc : now - last < cfg.cooldown
      · simp [send_alert, hl, hc] at h
      · simp [send_alert, hl, hc]

/-- Helper: the newest binding wins the `alerts_sent` lookup. -/
theorem lookupAlert_cons_self (rest : List ((String × String) × ℚ))
    (k : String × String) (v : ℚ) :
    lookupAlert ⟨(k, v) :: rest⟩ k = some v := by
  simp [lookupAlert]

/-- C2: once a `send_alert` call for `(alert_type, message)` dispatches
at time `now`, a second call for the same pair strictly inside the
cooldown window is a silent no-op (state unchanged, nothing
dispatched), and a third call made once `cooldown` seconds have elapsed
since the recorded send dispatches again. -/
theorem C2_cooldown_dedup (cfg : AlertConfig) (st : AlertState) (now now2 now3 : ℚ)
    (t m : String) (e1 w1 e2 w2 e3 w3 : SinkResult)
    (h1 : (send_alert cfg st now t m e1 w1).2.isSome = true)
    (h2 : now2 - now < cfg.cooldown)
    (h3 : cfg.cooldown ≤ now3 - now) :
    send_alert cfg (send_alert cfg st now t m e1 w1).1 now2 t m e2 w2
      = ((send_alert cfg st now t m e1 w1).1, none) ∧
    (send_alert cfg (send_alert cfg st now t m e1 w1).1 now3 t m e3 w3).2.isSome = true := by
  have hst := send_alert_state_of_dispatched cfg st now t m e1 w1 h1
  rw [hst]
  have hlk : lookupAlert ⟨((t, m), now) :: st.alerts_sent⟩ (t, m) = some now :=
    lookupAlert_cons_self _ _ _
  constructor
  · simp [send_alert, hlk, h2]
  · simp [send_alert, hlk, not_lt.mpr h3]

/-- C2, instantiated: cooldown 300 s, first dispatch at t=0, duplicate
at t=100 suppressed, repeat at t=300 dispatched. -/
theorem C2_cooldown_dedup_witness :
    (send_alert alertCfg300 ⟨[]⟩ 0 "HEALTH_CHECK_FAILED" "api down"
        .delivered .delivered).2.isSome = true ∧
    (send_alert alertCfg300
        (send_alert alertCfg300 ⟨[]⟩ 0 "HEALTH_CHECK_FAILED" "api down"
          .delivered .delivered).1
        100 "HEALTH_CHECK_FAILED" "api down" .delivered .delivered
      = ((send_alert alertCfg300 ⟨[]⟩ 0 "HEALTH_CHECK_FAILED" "api down"
          .delivered .delivered).1, none) ∧
     (send_alert alertCfg300
        (send_alert alertCfg300 ⟨[]⟩ 0 "HEALTH_CHECK_FAILED" "api down"
          .delivered .delivered).1
        300 "HEALTH_CHECK_FAILED" "api down" .delivered .delivered).2.isSome = true) :=
  ⟨by decide,
    C2_cooldown_dedup alertCfg300 ⟨[]⟩ 0 100 300 "HEALTH_CHECK_FAILED" "api down"
      .delivered .delivered .delivered .delivered .delivered .delivered
      (by decide) (by norm_num [alertCfg300]) (by norm_num [alertCfg300])⟩

/-- C10: a dispatched `send_alert` call records `last_sent = now`
even when every attempted sink delivery FAILS (sink exceptions are
caught inside the sink senders and never reach the cooldown state), so
a second call for the same pair inside the cooldown window dispatches
nothing — the fully failed delivery consumed the window. -/
theorem C10_failed_sinks_consume_cooldown (cfg : AlertConfig) (st : AlertState)
    (now now2 : ℚ) (t m ee we : String) (e2 w2 : SinkResult)
    (h1 : (send_alert cfg st now t m (.failed ee) (.failed we)).2.isSome = true)
    (h2 : now2 - now < cfg.cooldown) :
    lookupAlert (send_alert cfg st now t m (.failed ee) (.failed we)).1 (t, m)
      = some now ∧
    send_alert cfg (send_alert cfg st now t m (.failed ee) (.failed we)).1 now2 t m e2 w2
      = ((send_alert cfg st now t m (.failed ee) (.failed we)).1, none) := by
  have hst := send_alert_state_of_dispatched cfg st now t m (.failed ee) (.failed we) h1
  rw [hst]
  exact ⟨lookupAlert_cons_self _ _ _,
    by simp [send_alert, lookupAlert_cons_self, h2]⟩

/-- C10, instantiated: both sinks enabled and both deliveries failing
at t=0; the retry at t=60 dispatches nothing. -/
theorem C10_failed_sinks_witness :
    (send_alert alertCfgBoth ⟨[]⟩ 0 "HEALTH_CHECK_FAILED" "svc down"
        (.failed "smtp refused") (.failed "http 500")).2.isSome = true ∧
    (lookupAlert (send_alert alertCfgBoth ⟨[]⟩ 0 "HEALTH_CHECK_FAILED" "svc down"
        (.failed "smtp refused") (.failed "http 500")).1
        ("HEALTH_CHECK_FAILED", "svc down") = some 0 ∧
     send_alert alertCfgBoth
        (send_alert alertCfgBoth ⟨[]⟩ 0 "HEALTH_CHECK_FAILED" "svc down"
          (.failed "smtp refused") (.failed "http 500")).1
        60 "HEALTH_CHECK_FAILED" "svc down" .delivered .delivered
      = ((send_alert alertCfgBoth ⟨[]⟩ 0 "HEALTH_CHECK_FAILED" "svc down"
          (.failed "smtp refused") (.failed "http 500")).1, none)) :=
  ⟨by decide,
    C10_failed_sinks_consume_cooldown alertCfgBoth ⟨[]⟩ 0 60
      "HEALTH_CHECK_FAILED" "svc down" "smtp refused" "http 500"
      .delivered .delivered (by decide) (by norm_num [alertCfgBoth])⟩

/-- Helper: the newest binding wins the `last_checks` lookup. -/
theorem lookupRecovery_cons_self (rest : List (String × ℚ)) (k : String) (v : ℚ) :
    lookupRecovery ⟨(k, v) :: rest⟩ k = some v := by
  simp [lookupRecovery]

/-- Helper: a recovery invocation whose restart action COMPLETED and
which issued the action records the attempt time as the newest
`last_checks` binding (and auto-restart was necessarily on). -/
theorem attempt_recovery_completed_state (cfg : RecoveryConfig) (st : RecoveryState)
    (now : ℚ) (svc : Option CheckStatus) (rc : ℤ) (stderr : String)
    (h : (attempt_recovery cfg st now svc (.completed rc stderr)).2 = true) :
    (attempt_recovery cfg st now svc (.completed rc stderr)).1
      = ⟨("service_restart", now) :: st.last_checks⟩ ∧ cfg.auto_restart = true := by
  by_cases ha : cfg.auto_restart = false
  · simp [attempt_recovery, ha] at h
  · by_cases hsvc : svc = some CheckStatus.error
    · cases hl : lookupRecovery st "service_restart" with
      | none => simp [attempt_recovery, ha, hl, hsvc]
      | some last =>
          by_cases hc : now - last < cfg.restart_cooldown
          · simp [attempt_recovery, ha, hl, hc] at h
          · simp [attempt_recovery, ha, hl, hc, hsvc]
    · simp [attempt_recovery, ha, hsvc, ite_self] at h

/-- Helper: a recovery invocation whose restart action RAISED leaves
`last_checks` untouched, whatever the configuration and state. -/
theorem attempt_recovery_raised_state (cfg : RecoveryConfig) (st : RecoveryState)
    (now : ℚ) (svc : Option CheckStatus) (e : String) :
    (attempt_recovery cfg st now svc (.raised e)).1 = st := by
  by_cases ha : cfg.auto_restart = false
  · simp [attempt_recovery, ha]
  · by_cases hsvc : svc = some CheckStatus.error
    · cases hl : lookupRecovery st "service_restart" with
      | none => simp [attempt_recovery, ha, hl, hsvc]
      | some last =>
          by_cases hc : now - last < cfg.restart_cooldown <;>
            simp [attempt_recovery, ha, hl, hc, hsvc]
    · simp [attempt_recovery, ha, hsvc, ite_self]

/-- C3 counterexample: with auto-restart on and a 600 s cooldown, a
recovery attempt at t=0 whose restart action RAISES issues the action
but records NO `last_attempt` (the assignment sits at the end of the
`try` block, after the raising call), so a second attempt at t=1 —
within the cooldown of the prior attempt — issues the action again,
refuting the claim that `last_attempt` is recorded unconditionally. -/
theorem C3_counterexample :
    (attempt_recovery recCfg ⟨[]⟩ 0 (some CheckStatus.error) (.raised "timed out")).2 = true ∧
    (attempt_recovery recCfg ⟨[]⟩ 0 (some CheckStatus.error) (.raised "timed out")).1 = ⟨[]⟩ ∧
    (attempt_recovery recCfg
        (attempt_recovery recCfg ⟨[]⟩ 0 (some CheckStatus.error) (.raised "timed out")).1
        1 (some CheckStatus.error) (.raised "timed out")).2 = true := by
  decide

/-- C3 amended: `last_attempt` is recorded exactly when the restart
action COMPLETES (with any return code, success or failure), and then
no further attempt is issued within `restart_cooldown` seconds; but
when the action RAISES, nothing is recorded, so a retry within the
cooldown remains possible. -/
theorem C3_amended (cfg : RecoveryConfig) (st : RecoveryState) (now now2 : ℚ)
    (svc svc2 : Option CheckStatus) (rc : ℤ) (stderr e : String) (o2 : RestartOutcome)
    (h1 : (attempt_recovery cfg st now svc (.completed rc stderr)).2 = true)
    (h2 : now2 - now < cfg.restart_cooldown) :
    lookupRecovery (attempt_recovery cfg st now svc (.completed rc stderr)).1
      "service_restart" = some now ∧
    (attempt_recovery cfg (attempt_recovery cfg st now svc (.completed rc stderr)).1
        now2 svc2 o2).2 = false ∧
    (attempt_recovery cfg st now svc (.raised e)).1 = st := by
  obtain ⟨hst, ha⟩ := attempt_recovery_completed_state cfg st now svc rc stderr h1
  rw [hst]
  refine ⟨lookupRecovery_cons_self _ _ _, ?_, attempt_recovery_raised_state _ _ _ _ _⟩
  simp [attempt_recovery, ha, lookupRecovery_cons_self, h2]

/-- C3 amended, instantiated: a completed (successful) restart at t=0
records t=0 and blocks the attempt at t=1. -/
theorem C3_amended_witness :
    (attempt_recovery recCfg ⟨[]⟩ 0 (some CheckStatus.error) (.completed 0 "")).2 = true ∧
    (lookupRecovery (attempt_recovery recCfg ⟨[]⟩ 0 (some CheckStatus.error)
        (.completed 0 "")).1 "service_restart" = some 0 ∧
     (attempt_recovery recCfg
        (attempt_recovery recCfg ⟨[]⟩ 0 (some CheckStatus.error) (.completed 0 "")).1
        1 (some CheckStatus.error) (.completed 0 "")).2 = false ∧
     (attempt_recovery recCfg ⟨[]⟩ 0 (some CheckStatus.error) (.raised "boom")).1 = ⟨[]⟩) :=
  ⟨by decide,
    C3_amended recCfg ⟨[]⟩ 0 1 (some CheckStatus.error) (some CheckStatus.error) 0 "" "boom"
      (.completed 0 "") (by decide) (by norm_num [recCfg])⟩

set_option maxRecDepth 20000 in
/-- C7 counterexample: eleven keyword-matching lines are tailed, the
FIRST timestamped recently (t=900 against now=1000, within 5 minutes)
and the remaining ten timestamped long ago.  Since only the last ten
matching lines are recency-filtered (`error_lines[-10:]`), the recent
matching line is silently dropped and the probe PASSES even though a
tailed line both matches a keyword and is recent, refuting the claimed
equivalence. -/
theorem C7_counterexample :
    (check_log_errors parseCex 1000 (.tail stdoutCex)).1 = true ∧
    (splitLines stdoutCex).any
      (fun l => containsKeyword l && recentLine parseCex 1000 l) = true := by
  have hO : recentLine parseCex 1000 "O - ERROR old" = false := by
    have ht : timestampStr "O - ERROR old" = "O" := by decide
    simp [recentLine, ht, parseCex]
    norm_num
  have hR : recentLine parseCex 1000 "R - ERROR recent" = true := by
    have ht : timestampStr "R - ERROR recent" = "R" := by decide
    simp [recentLine, ht, parseCex]
    norm_num
  have herr : ((splitLines stdoutCex).filter containsKeyword).map stripStr = cexLines := by
    decide
  have hsplit : splitLines stdoutCex = cexLines := by decide
  have hlast : lastTen cexLines = List.replicate 10 "O - ERROR old" := by decide
  have hk : containsKeyword "R - ERROR recent" = true := by decide
  constructor
  · show ((lastTen (((splitLines stdoutCex).filter containsKeyword).map stripStr)).filter
        (recentLine parseCex 1000)).isEmpty = true
    rw [herr, hlast]
    simp [List.filter_replicate, hO]
  · rw [hsplit]
    simp [cexLines, hk, hR]

/-- C7 amended: the `log_errors` probe passes iff NONE of the LAST TEN
keyword-matching tailed lines (stripped) is recent — a keyword line is
recent when its extracted timestamp parses to within the last 5 minutes
or fails to parse — and absence of the log file passes.  Matching lines
older in the tail than the last ten matches are never consulted. -/
theorem C7_amended (parse : String → Option ℚ) (now : ℚ) (stdout : String) :
    ((check_log_errors parse now (.tail stdout)).1 = true
      ↔ ∀ l ∈ lastTen (((splitLines stdout).filter containsKeyword).map stripStr),
          recentLine parse now l = false) ∧
    (check_log_errors parse now .missing).1 = true := by
  constructor
  · show ((lastTen (((splitLines stdout).filter containsKeyword).map stripStr)).filter
        (recentLine parse now)).isEmpty = true ↔ _
    rw [List.isEmpty_iff, List.filter_eq_nil_iff]
    simp
  · rfl
